import Mathlib

/-!
Verification development for the `video-ware` repository.

The repository consists of a single script,
`src/verification/verify_timeline_editor.py`: a browser smoke check that
registers six network-mock routes, navigates to a timeline page, injects an
auth record into client storage, reloads, runs a fixed sequence of visibility
assertions, and captures screenshots.  The top-level driver launches a
browser, runs the check, swallows any exception, and closes the browser in a
`finally` block.

We embed the script shallowly:

* The route table and Playwright's URL-glob matching/dispatch are modelled
  executably (`globMatch`, `routes`, `dispatch`).  Playwright registers each
  new route at the front of its route list and serves a request with the
  first registered route that matches, i.e. the most recently registered
  matching route wins.
* The body of `test_timeline_editor` is a linear sequence of operations.  We
  model it as a function from an environment (which records, for each
  fallible operation, whether it succeeds or raises which exception) to a
  result (`Except Exc Unit`) together with the ordered trace of effects the
  run performed.  The debug `page.on("console", ...)` / `page.on("pageerror",
  ...)` log hooks and the `print` statements of the script are not observable
  behaviour and are not modelled as effects.
-/

namespace VideoWare

/-- A Python exception, as far as the script can distinguish them: a
Playwright timeout, a failed `expect` assertion, or any other error raised by
a page operation.  The script's bare `except:` and the driver's
`except Exception` catch all of these. -/
inductive Exc where
  | timeoutError
  | assertionFailed (msg : String)
  | pageFailure (msg : String)
  deriving DecidableEq, Repr

/-- One observable effect performed by the script, in the order the Python
statements execute them. -/
inductive Effect where
  | register (pat : String)
  | goto (url : String)
  | setLocalStorage (key value : String)
  | setCookie (name value : String)
  | reload
  | waitText (txt : String) (timeoutMs : Nat)
  | click (selector : String)
  | expectVisible (target : String)
  | pressKey (key : String)
  | screenshot (path : String)
  | logError (e : Exc)
  | browserClose
  deriving DecidableEq, Repr

/-- The environment of one run: for each operation of the script that can
raise (navigation, reload, the 10-second text wait, the two clicks and the
four visibility assertions), either `none` (the operation succeeds) or
`some e` (it raises the exception `e`).  Route registration, the storage
injection, the key press and the screenshots do not raise in this model. -/
structure Env where
  gotoE : Option Exc
  reloadE : Option Exc
  waitE : Option Exc
  clickRecentE : Option Exc
  creationTimeE : Option Exc
  settingsVisibleE : Option Exc
  settingsClickE : Option Exc
  recSettingsE : Option Exc
  activeStratE : Option Exc

/-- Result of running a fragment of the script: the exception it propagates
(if any) and the ordered list of effects it performed before returning. -/
abbrev TestResult := Except Exc Unit × List Effect

/-- Sequencing: run `x`; if it raised, propagate without running `y`,
otherwise run `y` after it. -/
def mseq (x y : TestResult) : TestResult :=
  match x.1 with
  | Except.ok _ => (y.1, x.2 ++ y.2)
  | Except.error e => (Except.error e, x.2)

/-- An infallible operation: performs its effect and succeeds. -/
def emit (eff : Effect) : TestResult :=
  (Except.ok (), [eff])

/-- A fallible operation: performs its effect (the attempt is observable) and
succeeds or raises according to the environment. -/
def perform (eff : Effect) (oc : Option Exc) : TestResult :=
  match oc with
  | none => (Except.ok (), [eff])
  | some e => (Except.error e, [eff])

/-- Re-raise an exception (Python's bare `raise` inside an `except` block). -/
def throwE (e : Exc) : TestResult :=
  (Except.error e, [])

/-- Python `try`/`except`: if `x` raises `e`, run `handler e` after it;
a bare `except:` catches every exception. -/
def attempt (x : TestResult) (handler : Exc → TestResult) : TestResult :=
  match x.1 with
  | Except.ok _ => x
  | Except.error e => ((handler e).1, x.2 ++ (handler e).2)

/-! ## Playwright URL-glob matching

Playwright matches a route pattern against the full request URL: `**` matches
any sequence of characters, `*` matches any sequence of characters not
containing `/`, and every other character matches itself.  The pattern must
match the entire URL.  `globMatchFuel` is a fuel-indexed matcher; every
recursive call strictly decreases `pattern.length + url.length`, so fuel
`pattern.length + url.length + 1` (used by `globMatch`) is always enough. -/

def globMatchFuel : Nat → List Char → List Char → Bool
  | 0, _, _ => false
  | _ + 1, [], [] => true
  | _ + 1, [], _ :: _ => false
  | f + 1, '*' :: '*' :: p, u =>
      globMatchFuel f p u ||
        (match u with
          | [] => false
          | _ :: u2 => globMatchFuel f ('*' :: '*' :: p) u2)
  | f + 1, '*' :: p, u =>
      globMatchFuel f p u ||
        (match u with
          | [] => false
          | c :: u2 => (c != '/') && globMatchFuel f ('*' :: p) u2)
  | f + 1, c :: p, d :: u => c == d && globMatchFuel f p u
  | _ + 1, _ :: _, [] => false

/-- Whether the Playwright glob `pat` matches the URL `url`. -/
def globMatch (pat url : String) : Bool :=
  globMatchFuel (pat.length + url.length + 1) pat.data url.data

/-! ## JSON values and serialization

The script builds plain JSON objects and serializes them with Python's
`json.dumps` (inside the route handlers; item separator `", "`, key separator
`": "`) and with JavaScript's `JSON.stringify` (inside the injected page
script; separators `","` and `":"`).  Both emit object keys in insertion
order. -/

inductive Json where
  | str (s : String)
  | num (n : Nat)
  | arr (items : List Json)
  | obj (fields : List (String × Json))

/-- Quote a string for JSON output (none of the script's strings need
character escaping). -/
def quoteStr (s : String) : String :=
  "\"" ++ s ++ "\""

mutual

def dumpsF (isep ksep : String) : Json → String
  | Json.str s => quoteStr s
  | Json.num n => toString n
  | Json.arr items => "[" ++ dumpsItems isep ksep items ++ "]"
  | Json.obj fields => "\x7b" ++ dumpsFields isep ksep fields ++ "\x7d"

def dumpsItems (isep ksep : String) : List Json → String
  | [] => ""
  | [j] => dumpsF isep ksep j
  | j :: rest => dumpsF isep ksep j ++ isep ++ dumpsItems isep ksep rest

def dumpsFields (isep ksep : String) : List (String × Json) → String
  | [] => ""
  | [(k, v)] => quoteStr k ++ ksep ++ dumpsF isep ksep v
  | (k, v) :: rest =>
      quoteStr k ++ ksep ++ dumpsF isep ksep v ++ isep ++ dumpsFields isep ksep rest

end

/-- Python's `json.dumps` with default separators. -/
def pyDumps (j : Json) : String :=
  dumpsF ", " ": " j

/-- JavaScript's `JSON.stringify` (no spaces). -/
def jsStringify (j : Json) : String :=
  dumpsF "," ":" j

/-! ## The script's mock route table -/

def P_auth : String := "**/api/collections/users/auth-refresh"
def P_ws : String := "**/api/collections/Workspaces/records**"
def P_tl : String := "**/api/collections/Timelines/records/tl1*"
def P_mc : String := "**/api/collections/MediaClips/records**"
def P_rec : String := "**/api/collections/TimelineRecommendations/records**"
def P_files : String := "**/api/files/**"

/-- The response a mock route fulfills a request with (`route.fulfill`).
`body = none` models fulfilling with no body (an empty body). -/
structure MockResponse where
  status : Nat
  contentType : Option String
  body : Option String
  deriving DecidableEq, Repr

/-- The script's `handle_json` helper: fulfill with status 200,
content type `application/json`, and the `json.dumps` of `data`. -/
def handle_json (data : Json) : MockResponse :=
  ⟨200, some "application/json", some (pyDumps data)⟩

def authRefreshJson : Json :=
  Json.obj
    [("record", Json.obj [("id", Json.str "user1"), ("email", Json.str "test@test.com")]),
     ("token", Json.str "test-token")]

def workspacesJson : Json :=
  Json.obj
    [("items",
      Json.arr
        [Json.obj
          [("id", Json.str "ws1"), ("name", Json.str "Test Workspace"),
           ("members", Json.arr [Json.str "user1"])]])]

def timeline_data : Json :=
  Json.obj
    [("id", Json.str "tl1"),
     ("name", Json.str "Test Timeline"),
     ("WorkspaceRef", Json.str "ws1"),
     ("clips", Json.arr []),
     ("duration", Json.num 100),
     ("expand", Json.obj [("TimelineClips_via_TimelineRef", Json.arr [])])]

def mediaClipsJson : Json :=
  Json.obj [("items", Json.arr []), ("totalItems", Json.num 0)]

def recommendationsJson : Json :=
  Json.obj [("items", Json.arr []), ("totalItems", Json.num 0)]

/-- The file route fulfills with status 404 and no body. -/
def fileResponse : MockResponse :=
  ⟨404, none, none⟩

/-- The route registry after the six `page.route` calls.  Playwright inserts
each newly registered route at the front of the list, so the list is in
reverse registration order: the `**/api/files/**` route (registered last)
comes first. -/
def routes : List (String × MockResponse) :=
  [(P_files, fileResponse),
   (P_rec, handle_json recommendationsJson),
   (P_mc, handle_json mediaClipsJson),
   (P_tl, handle_json timeline_data),
   (P_ws, handle_json workspacesJson),
   (P_auth, handle_json authRefreshJson)]

/-- Route dispatch: a request is served by the first route in the registry
whose pattern matches its URL (i.e. the most recently registered matching
route); `none` means no route matches and the request goes to the real
network. -/
def dispatch (url : String) : Option MockResponse :=
  (routes.find? (fun pr => globMatch pr.1 url)).map (fun pr => pr.2)

/-! ## The script body -/

/-- The auth object the injected page script builds
(`const authStore = ...`). -/
def authStoreJson : Json :=
  Json.obj
    [("token", Json.str "test-token"),
     ("model", Json.obj [("id", Json.str "user1"), ("email", Json.str "test@test.com")])]

/-- `JSON.stringify(authStore)`: the string written to `localStorage` under
`pocketbase_auth` and used as the value of the `pb_auth` cookie. -/
def authJson : String :=
  jsStringify authStoreJson

def targetUrl : String := "http://localhost:3000/timelines/tl1"

/-- The body of `test_timeline_editor`, line by line: register the six mock
routes, navigate, inject the auth record into `localStorage` and the
`pb_auth` cookie, reload, wait (10 s timeout) for "Test Timeline" with a
bare `except:` that screenshots `verification/timeout.png` and re-raises,
then the sort-control and settings assertions, and the final screenshot. -/
def test_timeline_editor (env : Env) : TestResult :=
  mseq (emit (Effect.register P_auth)) <|
  mseq (emit (Effect.register P_ws)) <|
  mseq (emit (Effect.register P_tl)) <|
  mseq (emit (Effect.register P_mc)) <|
  mseq (emit (Effect.register P_rec)) <|
  mseq (emit (Effect.register P_files)) <|
  mseq (perform (Effect.goto targetUrl) env.gotoE) <|
  mseq (emit (Effect.setLocalStorage "pocketbase_auth" authJson)) <|
  mseq (emit (Effect.setCookie "pb_auth" authJson)) <|
  mseq (perform Effect.reload env.reloadE) <|
  mseq
    (attempt (perform (Effect.waitText "Test Timeline" 10000) env.waitE)
      (fun e => mseq (emit (Effect.screenshot "verification/timeout.png")) (throwE e))) <|
  mseq (perform (Effect.click "text=Recent") env.clickRecentE) <|
  mseq (perform (Effect.expectVisible "option:Creation Time") env.creationTimeE) <|
  mseq (emit (Effect.pressKey "Escape")) <|
  mseq (perform (Effect.expectVisible "title:Settings") env.settingsVisibleE) <|
  mseq (perform (Effect.click "title:Settings") env.settingsClickE) <|
  mseq (perform (Effect.expectVisible "text:Recommendation Settings") env.recSettingsE) <|
  mseq (perform (Effect.expectVisible "text:Active Strategies") env.activeStratE) <|
  emit (Effect.screenshot "verification/verification.png")

/-- The `__main__` driver: run the test; `except Exception as e` catches any
exception and prints it (so the process still exits as if successful), and
the `finally` block closes the browser on every path. -/
def main_driver (env : Env) : TestResult :=
  let r := test_timeline_editor env
  match r.1 with
  | Except.ok _ => (Except.ok (), r.2 ++ [Effect.browserClose])
  | Except.error e => (Except.ok (), r.2 ++ [Effect.logError e, Effect.browserClose])

/-! ## Concrete environments used to instantiate the theorems -/

/-- Every operation succeeds. -/
def okEnv : Env :=
  ⟨none, none, none, none, none, none, none, none, none⟩

/-- The initial navigation fails. -/
def gotoFailEnv : Env :=
  ⟨some (Exc.pageFailure "net::ERR_CONNECTION_REFUSED"), none, none, none, none,
   none, none, none, none⟩

/-- The 10-second wait for "Test Timeline" times out. -/
def waitTimeoutEnv : Env :=
  ⟨none, none, some Exc.timeoutError, none, none, none, none, none, none⟩

/-- The 10-second wait fails with a non-timeout exception. -/
def waitCrashEnv : Env :=
  ⟨none, none, some (Exc.pageFailure "Target page, context or browser has been closed"),
   none, none, none, none, none, none⟩

/-- The "Creation Time" assertion fails after a successful wait. -/
def lateFailEnv : Env :=
  ⟨none, none, none, none, some (Exc.assertionFailed "Creation Time not visible"),
   none, none, none, none⟩

/-- A URL that matches both the Workspaces pattern and the files pattern:
`**` matches across `/`, so the Workspaces glob matches it with its leading
`**` absorbing `http://localhost:3000/api/files/x`, while the files glob
matches it with its trailing `**` absorbing the rest. -/
def overlapUrl : String :=
  "http://localhost:3000/api/files/x/api/collections/Workspaces/records"

/-! ## Helper lemmas -/

instance : DecidableEq (Except Exc Unit) := fun a b =>
  match a, b with
  | Except.ok x, Except.ok y =>
      if h : x = y then isTrue (by rw [h]) else isFalse (by intro hc; injection hc; contradiction)
  | Except.error x, Except.error y =>
      if h : x = y then isTrue (by rw [h]) else isFalse (by intro hc; injection hc; contradiction)
  | Except.ok _, Except.error _ => isFalse (fun hc => Except.noConfusion hc)
  | Except.error _, Except.ok _ => isFalse (fun hc => Except.noConfusion hc)

/-- The two screenshot paths of the script are distinct files. -/
theorem screenshot_paths_distinct :
    ¬ ("verification/verification.png" : String) = "verification/timeout.png" := by
  decide

/-- The trace of a run that succeeds through the reload and then fails (with
any exception) at the "Test Timeline" wait: the six route registrations, the
navigation, the two auth writes, the reload, the failed wait, and the
diagnostic screenshot taken by the bare `except:` handler. -/
def timeoutRunTrace : List Effect :=
  [Effect.register P_auth, Effect.register P_ws, Effect.register P_tl,
   Effect.register P_mc, Effect.register P_rec, Effect.register P_files,
   Effect.goto targetUrl,
   Effect.setLocalStorage "pocketbase_auth" authJson,
   Effect.setCookie "pb_auth" authJson,
   Effect.reload,
   Effect.waitText "Test Timeline" 10000,
   Effect.screenshot "verification/timeout.png"]

/-- The trace of a fully successful run, in source order. -/
def fullRunTrace : List Effect :=
  [Effect.register P_auth, Effect.register P_ws, Effect.register P_tl,
   Effect.register P_mc, Effect.register P_rec, Effect.register P_files,
   Effect.goto targetUrl,
   Effect.setLocalStorage "pocketbase_auth" authJson,
   Effect.setCookie "pb_auth" authJson,
   Effect.reload,
   Effect.waitText "Test Timeline" 10000,
   Effect.click "text=Recent",
   Effect.expectVisible "option:Creation Time",
   Effect.pressKey "Escape",
   Effect.expectVisible "title:Settings",
   Effect.click "title:Settings",
   Effect.expectVisible "text:Recommendation Settings",
   Effect.expectVisible "text:Active Strategies",
   Effect.screenshot "verification/verification.png"]

/-- The body of the test never closes the browser itself: closing is done
only by the driver's `finally` block. -/
theorem test_trace_no_close (env : Env) :
    Effect.browserClose ∉ (test_timeline_editor env).2 := by
  cases hg : env.gotoE with
  | some e => simp [test_timeline_editor, mseq, emit, perform, attempt, throwE, hg]
  | none =>
    cases hr : env.reloadE with
    | some e => simp [test_timeline_editor, mseq, emit, perform, attempt, throwE, hg, hr]
    | none =>
      cases hw : env.waitE with
      | some e =>
        simp [test_timeline_editor, mseq, emit, perform, attempt, throwE, hg, hr, hw]
      | none =>
        cases hc : env.clickRecentE with
        | some e =>
          simp [test_timeline_editor, mseq, emit, perform, attempt, throwE, hg, hr, hw, hc]
        | none =>
          cases hct : env.creationTimeE with
          | some e =>
            simp [test_timeline_editor, mseq, emit, perform, attempt, throwE,
              hg, hr, hw, hc, hct]
          | none =>
            cases hsv : env.settingsVisibleE with
            | some e =>
              simp [test_timeline_editor, mseq, emit, perform, attempt, throwE,
                hg, hr, hw, hc, hct, hsv]
            | none =>
              cases hsc : env.settingsClickE with
              | some e =>
                simp [test_timeline_editor, mseq, emit, perform, attempt, throwE,
                  hg, hr, hw, hc, hct, hsv, hsc]
              | none =>
                cases hrs : env.recSettingsE with
                | some e =>
                  simp [test_timeline_editor, mseq, emit, perform, attempt, throwE,
                    hg, hr, hw, hc, hct, hsv, hsc, hrs]
                | none =>
                  cases has : env.activeStratE with
                  | some e =>
                    simp [test_timeline_editor, mseq, emit, perform, attempt, throwE,
                      hg, hr, hw, hc, hct, hsv, hsc, hrs, has]
                  | none =>
                    simp [test_timeline_editor, mseq, emit, perform, attempt, throwE,
                      hg, hr, hw, hc, hct, hsv, hsc, hrs, has]

/-! ## C1 -/

/-- C1 (amended): every request whose URL matches one of the six registered
patterns is served by a mock (`dispatch` returns `some`, so no real network
call occurs).  The request is served by the most recently registered matching
route; in particular any URL matching the files pattern gets the 404
empty-body response, and a URL matching one of the five JSON patterns gets
that pattern's 200 response with its fixed JSON body provided it matches no
later-registered pattern. -/
theorem c1_mock_route_dispatch (url : String) :
    ((globMatch P_auth url || globMatch P_ws url || globMatch P_tl url ||
        globMatch P_mc url || globMatch P_rec url || globMatch P_files url) = true →
      (dispatch url).isSome = true) ∧
    (globMatch P_files url = true →
      dispatch url = some fileResponse ∧ fileResponse.status = 404 ∧
        fileResponse.body = none) ∧
    (globMatch P_rec url = true → globMatch P_files url = false →
      dispatch url = some (handle_json recommendationsJson)) ∧
    (globMatch P_mc url = true → globMatch P_rec url = false →
      globMatch P_files url = false →
      dispatch url = some (handle_json mediaClipsJson)) ∧
    (globMatch P_tl url = true → globMatch P_mc url = false →
      globMatch P_rec url = false → globMatch P_files url = false →
      dispatch url = some (handle_json timeline_data)) ∧
    (globMatch P_ws url = true → globMatch P_tl url = false →
      globMatch P_mc url = false → globMatch P_rec url = false →
      globMatch P_files url = false →
      dispatch url = some (handle_json workspacesJson)) ∧
    (globMatch P_auth url = true → globMatch P_ws url = false →
      globMatch P_tl url = false → globMatch P_mc url = false →
      globMatch P_rec url = false → globMatch P_files url = false →
      dispatch url = some (handle_json authRefreshJson)) := by
  refine ⟨?_, ?_, ?_, ?_, ?_, ?_, ?_⟩
  · intro h
    simp only [Bool.or_eq_true] at h
    rcases h with ((((h | h) | h) | h) | h) | h <;>
      · simp only [dispatch, routes, List.find?]
        cases h1 : globMatch P_files url <;> cases h2 : globMatch P_rec url <;>
          cases h3 : globMatch P_mc url <;> cases h4 : globMatch P_tl url <;>
          cases h5 : globMatch P_ws url <;> cases h6 : globMatch P_auth url <;>
          simp_all
  · intro h
    simp [dispatch, routes, List.find?, fileResponse, h]
  · intro h1 h2
    simp [dispatch, routes, List.find?, h1, h2]
  · intro h1 h2 h3
    simp [dispatch, routes, List.find?, h1, h2, h3]
  · intro h1 h2 h3 h4
    simp [dispatch, routes, List.find?, h1, h2, h3, h4]
  · intro h1 h2 h3 h4 h5
    simp [dispatch, routes, List.find?, h1, h2, h3, h4, h5]
  · intro h1 h2 h3 h4 h5 h6
    simp [dispatch, routes, List.find?, h1, h2, h3, h4, h5, h6]

/-- C1 counterexample: `overlapUrl` matches the Workspaces pattern, yet the
route table serves it with the 404 file response instead of the 200
Workspaces body, because it also matches the later-registered files pattern.
This refutes the claim as stated ("each of the other five patterns gets
status 200 with its fixed JSON body" for every matching URL). -/
theorem c1_overlap_counterexample :
    globMatch P_ws overlapUrl = true ∧
    globMatch P_files overlapUrl = true ∧
    dispatch overlapUrl = some fileResponse ∧
    fileResponse.status = 404 := by
  refine ⟨by decide, by decide, by decide, rfl⟩

/-- C1 witness: at a concrete Workspaces-listing URL that matches only the
Workspaces pattern, dispatch yields the configured 200 response. -/
theorem c1_mock_route_dispatch_witness :
    dispatch "http://localhost:3000/api/collections/Workspaces/records?page=1" =
      some (handle_json workspacesJson) :=
  (c1_mock_route_dispatch
      "http://localhost:3000/api/collections/Workspaces/records?page=1").2.2.2.2.2.1
    (by decide) (by decide) (by decide) (by decide) (by decide)

/-! ## C2 -/

/-- C2: the one wait with a timeout is the 10-second "Test Timeline" wait.
If the run reaches it (navigation and reload succeeded) and it times out,
the run performs the `verification/timeout.png` screenshot as its final
effect and then propagates the timeout out of `test_timeline_editor`. -/
theorem c2_timeout_screenshot (env : Env) (hg : env.gotoE = none)
    (hr : env.reloadE = none) (hw : env.waitE = some Exc.timeoutError) :
    test_timeline_editor env = (Except.error Exc.timeoutError, timeoutRunTrace) := by
  simp [test_timeline_editor, mseq, emit, perform, attempt, throwE, timeoutRunTrace,
    hg, hr, hw]

/-- C2 witness: the concrete run whose wait times out. -/
theorem c2_timeout_screenshot_witness :
    test_timeline_editor waitTimeoutEnv =
      (Except.error Exc.timeoutError, timeoutRunTrace) :=
  c2_timeout_screenshot waitTimeoutEnv rfl rfl rfl

/-! ## C9 -/

/-- C9: the handler around the "Test Timeline" wait is a bare `except:`: any
exception `e` raised by that wait, timeout or not, triggers the
`verification/timeout.png` screenshot and is then re-raised unchanged. -/
theorem c9_bare_except_reraise (env : Env) (e : Exc) (hg : env.gotoE = none)
    (hr : env.reloadE = none) (hw : env.waitE = some e) :
    test_timeline_editor env = (Except.error e, timeoutRunTrace) := by
  simp [test_timeline_editor, mseq, emit, perform, attempt, throwE, timeoutRunTrace,
    hg, hr, hw]

/-- C9 witness: a non-timeout exception at the wait also produces the
screenshot and is re-raised unchanged. -/
theorem c9_bare_except_reraise_witness :
    test_timeline_editor waitCrashEnv =
      (Except.error (Exc.pageFailure "Target page, context or browser has been closed"),
       timeoutRunTrace) :=
  c9_bare_except_reraise waitCrashEnv
    (Exc.pageFailure "Target page, context or browser has been closed") rfl rfl rfl

/-! ## C3 -/

/-- C3: on every execution path of the entry point, the driver's trace ends
with exactly one `browserClose`: the close is the final effect and occurs
nowhere earlier, whether `test_timeline_editor` returned normally or raised. -/
theorem c3_browser_closed_once (env : Env) :
    ∃ t, (main_driver env).2 = t ++ [Effect.browserClose] ∧
      Effect.browserClose ∉ t := by
  cases h : (test_timeline_editor env).1 with
  | ok _ =>
    refine ⟨(test_timeline_editor env).2, ?_, test_trace_no_close env⟩
    simp [main_driver, h]
  | error e =>
    refine ⟨(test_timeline_editor env).2 ++ [Effect.logError e], ?_, ?_⟩
    · simp [main_driver, h]
    · simp [test_trace_no_close env]

/-! ## C4 -/

/-- C4: the top-level driver catches any exception raised by
`test_timeline_editor`, logs it, and does not re-raise: the driver's result
is success on every path, and on a failing path the error log appears in its
trace. -/
theorem c4_driver_swallows (env : Env) :
    (main_driver env).1 = Except.ok () ∧
    (∀ e, (test_timeline_editor env).1 = Except.error e →
      Effect.logError e ∈ (main_driver env).2) := by
  constructor
  · cases h : (test_timeline_editor env).1 with
    | ok _ => simp [main_driver, h]
    | error e => simp [main_driver, h]
  · intro e he
    simp [main_driver, he]

/-- C4 witness: the run whose initial navigation fails still ends as if
successful, with the exception logged. -/
theorem c4_driver_swallows_witness :
    (main_driver gotoFailEnv).1 = Except.ok () ∧
    Effect.logError (Exc.pageFailure "net::ERR_CONNECTION_REFUSED") ∈
      (main_driver gotoFailEnv).2 :=
  ⟨(c4_driver_swallows gotoFailEnv).1,
   (c4_driver_swallows gotoFailEnv).2
     (Exc.pageFailure "net::ERR_CONNECTION_REFUSED") rfl⟩

/-! ## C5 -/

/-- A run in which every operation succeeds returns normally and performs
exactly the effects of `fullRunTrace` in order. -/
theorem test_success_eq (env : Env) (hg : env.gotoE = none) (hr : env.reloadE = none)
    (hw : env.waitE = none) (hc : env.clickRecentE = none)
    (hct : env.creationTimeE = none) (hsv : env.settingsVisibleE = none)
    (hsc : env.settingsClickE = none) (hrs : env.recSettingsE = none)
    (has : env.activeStratE = none) :
    test_timeline_editor env = (Except.ok (), fullRunTrace) := by
  simp [test_timeline_editor, mseq, emit, perform, attempt, throwE, fullRunTrace,
    hg, hr, hw, hc, hct, hsv, hsc, hrs, has]

/-- C5: after auth injection and reload, a fully successful run performs the
fixed assertion sequence in order (wait for "Test Timeline" with a 10-second
timeout, open the sort control and check the "Creation Time" option, dismiss
it with Escape, check and click the "Settings" button, check the
"Recommendation Settings" and "Active Strategies" texts), and each of the
four visibility assertions propagates its failure out of
`test_timeline_editor` as the run's result. -/
theorem c5_assertion_sequence :
    (∀ env : Env, env.gotoE = none → env.reloadE = none → env.waitE = none →
      env.clickRecentE = none → env.creationTimeE = none →
      env.settingsVisibleE = none → env.settingsClickE = none →
      env.recSettingsE = none → env.activeStratE = none →
      test_timeline_editor env = (Except.ok (), fullRunTrace)) ∧
    (∀ env : Env, ∀ e : Exc, env.gotoE = none → env.reloadE = none →
      env.waitE = none → env.clickRecentE = none → env.creationTimeE = some e →
      (test_timeline_editor env).1 = Except.error e) ∧
    (∀ env : Env, ∀ e : Exc, env.gotoE = none → env.reloadE = none →
      env.waitE = none → env.clickRecentE = none → env.creationTimeE = none →
      env.settingsVisibleE = some e →
      (test_timeline_editor env).1 = Except.error e) ∧
    (∀ env : Env, ∀ e : Exc, env.gotoE = none → env.reloadE = none →
      env.waitE = none → env.clickRecentE = none → env.creationTimeE = none →
      env.settingsVisibleE = none → env.settingsClickE = none →
      env.recSettingsE = some e →
      (test_timeline_editor env).1 = Except.error e) ∧
    (∀ env : Env, ∀ e : Exc, env.gotoE = none → env.reloadE = none →
      env.waitE = none → env.clickRecentE = none → env.creationTimeE = none →
      env.settingsVisibleE = none → env.settingsClickE = none →
      env.recSettingsE = none → env.activeStratE = some e →
      (test_timeline_editor env).1 = Except.error e) := by
  refine ⟨test_success_eq, ?_, ?_, ?_, ?_⟩
  · intro env e hg hr hw hc hct
    simp [test_timeline_editor, mseq, emit, perform, attempt, throwE,
      hg, hr, hw, hc, hct]
  · intro env e hg hr hw hc hct hsv
    simp [test_timeline_editor, mseq, emit, perform, attempt, throwE,
      hg, hr, hw, hc, hct, hsv]
  · intro env e hg hr hw hc hct hsv hsc hrs
    simp [test_timeline_editor, mseq, emit, perform, attempt, throwE,
      hg, hr, hw, hc, hct, hsv, hsc, hrs]
  · intro env e hg hr hw hc hct hsv hsc hrs has
    simp [test_timeline_editor, mseq, emit, perform, attempt, throwE,
      hg, hr, hw, hc, hct, hsv, hsc, hrs, has]

/-- C5 witness: the all-success run performs exactly the fixed sequence. -/
theorem c5_assertion_sequence_witness :
    test_timeline_editor okEnv = (Except.ok (), fullRunTrace) :=
  c5_assertion_sequence.1 okEnv rfl rfl rfl rfl rfl rfl rfl rfl rfl

/-! ## C6 -/

/-- C6: once the navigation has succeeded, the run's next two effects write
the client storage key `pocketbase_auth` with the `JSON.stringify` of the
auth object and set the cookie `pb_auth` to the same JSON string, and that
string is exactly the serialization of an object with the fields `token`,
`model.id` and `model.email`. -/
theorem c6_auth_injection (env : Env) (hg : env.gotoE = none) :
    ([Effect.register P_auth, Effect.register P_ws, Effect.register P_tl,
      Effect.register P_mc, Effect.register P_rec, Effect.register P_files,
      Effect.goto targetUrl,
      Effect.setLocalStorage "pocketbase_auth" authJson,
      Effect.setCookie "pb_auth" authJson] <+: (test_timeline_editor env).2) ∧
    authJson =
      "\x7b\"token\":\"test-token\",\"model\":\x7b\"id\":\"user1\",\"email\":\"test@test.com\"\x7d\x7d" := by
  obtain ⟨g, r, w, cr, ct, sv, sc, rs, ast⟩ := env
  cases g with
  | some e => simp at hg
  | none => exact ⟨⟨_, rfl⟩, by decide⟩

/-- C6 witness: the injection effects on the all-success run. -/
theorem c6_auth_injection_witness :
    ([Effect.register P_auth, Effect.register P_ws, Effect.register P_tl,
      Effect.register P_mc, Effect.register P_rec, Effect.register P_files,
      Effect.goto targetUrl,
      Effect.setLocalStorage "pocketbase_auth" authJson,
      Effect.setCookie "pb_auth" authJson] <+: (test_timeline_editor okEnv).2) ∧
    authJson =
      "\x7b\"token\":\"test-token\",\"model\":\x7b\"id\":\"user1\",\"email\":\"test@test.com\"\x7d\x7d" :=
  c6_auth_injection okEnv rfl

/-! ## C7 -/

/-- C7: on every run, the first seven effects are exactly the six route
registrations in source order followed by the first navigation to the
timeline URL: every intercept rule is installed before any request can be
issued. -/
theorem c7_routes_registered_first (env : Env) :
    [Effect.register P_auth, Effect.register P_ws, Effect.register P_tl,
     Effect.register P_mc, Effect.register P_rec, Effect.register P_files,
     Effect.goto targetUrl] <+: (test_timeline_editor env).2 := by
  obtain ⟨g, r, w, cr, ct, sv, sc, rs, ast⟩ := env
  cases g with
  | some e => exact ⟨[], rfl⟩
  | none => exact ⟨_, rfl⟩

/-! ## C8 -/

/-- C8: the `verification/verification.png` screenshot is taken exactly when
every navigation, injection and assertion step completed without raising
(the run returns successfully), and on such a run it is the final effect
before `test_timeline_editor` returns. -/
theorem c8_success_screenshot (env : Env) :
    ((test_timeline_editor env).1 = Except.ok () ↔
      Effect.screenshot "verification/verification.png" ∈ (test_timeline_editor env).2) ∧
    ((test_timeline_editor env).1 = Except.ok () →
      (test_timeline_editor env).2.getLast? =
        some (Effect.screenshot "verification/verification.png")) := by
  cases hg : env.gotoE with
  | some e =>
    simp [test_timeline_editor, mseq, emit, perform, attempt, throwE,
      screenshot_paths_distinct, hg]
  | none =>
    cases hr : env.reloadE with
    | some e =>
      simp [test_timeline_editor, mseq, emit, perform, attempt, throwE,
        screenshot_paths_distinct, hg, hr]
    | none =>
      cases hw : env.waitE with
      | some e =>
        simp [test_timeline_editor, mseq, emit, perform, attempt, throwE,
          screenshot_paths_distinct, hg, hr, hw]
      | none =>
        cases hc : env.clickRecentE with
        | some e =>
          simp [test_timeline_editor, mseq, emit, perform, attempt, throwE,
            screenshot_paths_distinct, hg, hr, hw, hc]
        | none =>
          cases hct : env.creationTimeE with
          | some e =>
            simp [test_timeline_editor, mseq, emit, perform, attempt, throwE,
              screenshot_paths_distinct, hg, hr, hw, hc, hct]
          | none =>
            cases hsv : env.settingsVisibleE with
            | some e =>
              simp [test_timeline_editor, mseq, emit, perform, attempt, throwE,
                screenshot_paths_distinct, hg, hr, hw, hc, hct, hsv]
            | none =>
              cases hsc : env.settingsClickE with
              | some e =>
                simp [test_timeline_editor, mseq, emit, perform, attempt, throwE,
                  screenshot_paths_distinct, hg, hr, hw, hc, hct, hsv, hsc]
              | none =>
                cases hrs : env.recSettingsE with
                | some e =>
                  simp [test_timeline_editor, mseq, emit, perform, attempt, throwE,
                    screenshot_paths_distinct, hg, hr, hw, hc, hct, hsv, hsc, hrs]
                | none =>
                  cases has : env.activeStratE with
                  | some e =>
                    simp [test_timeline_editor, mseq, emit, perform, attempt, throwE,
                      screenshot_paths_distinct, hg, hr, hw, hc, hct, hsv, hsc, hrs, has]
                  | none =>
                    rw [test_success_eq env hg hr hw hc hct hsv hsc hrs has]
                    exact ⟨by decide, fun _ => by decide⟩

/-- C8 witness: on the all-success run the final screenshot is the last
effect. -/
theorem c8_success_screenshot_witness :
    (test_timeline_editor okEnv).2.getLast? =
      some (Effect.screenshot "verification/verification.png") :=
  (c8_success_screenshot okEnv).2 rfl

/-! ## C10 -/

/-- C10: if the run gets past the "Test Timeline" wait and then fails (any
of the later clicks or visibility assertions raises), `test_timeline_editor`
propagates the failure without performing any screenshot effect: neither
`verification/timeout.png` nor `verification/verification.png` is produced
on those paths. -/
theorem c10_no_screenshot_on_late_failure (env : Env) (e : Exc)
    (hg : env.gotoE = none) (hr : env.reloadE = none) (hw : env.waitE = none)
    (hfail : (test_timeline_editor env).1 = Except.error e) :
    ∀ p, Effect.screenshot p ∉ (test_timeline_editor env).2 := by
  cases hc : env.clickRecentE with
  | some e2 =>
    simp [test_timeline_editor, mseq, emit, perform, attempt, throwE, hg, hr, hw, hc]
  | none =>
    cases hct : env.creationTimeE with
    | some e2 =>
      simp [test_timeline_editor, mseq, emit, perform, attempt, throwE,
        hg, hr, hw, hc, hct]
    | none =>
      cases hsv : env.settingsVisibleE with
      | some e2 =>
        simp [test_timeline_editor, mseq, emit, perform, attempt, throwE,
          hg, hr, hw, hc, hct, hsv]
      | none =>
        cases hsc : env.settingsClickE with
        | some e2 =>
          simp [test_timeline_editor, mseq, emit, perform, attempt, throwE,
            hg, hr, hw, hc, hct, hsv, hsc]
        | none =>
          cases hrs : env.recSettingsE with
          | some e2 =>
            simp [test_timeline_editor, mseq, emit, perform, attempt, throwE,
              hg, hr, hw, hc, hct, hsv, hsc, hrs]
          | none =>
            cases has : env.activeStratE with
            | some e2 =>
              simp [test_timeline_editor, mseq, emit, perform, attempt, throwE,
                hg, hr, hw, hc, hct, hsv, hsc, hrs, has]
            | none =>
              rw [test_success_eq env hg hr hw hc hct hsv hsc hrs has] at hfail
              simp at hfail

/-- C10 witness: when the "Creation Time" assertion fails, the run writes
neither screenshot file. -/
theorem c10_no_screenshot_on_late_failure_witness :
    Effect.screenshot "verification/timeout.png" ∉
      (test_timeline_editor lateFailEnv).2 ∧
    Effect.screenshot "verification/verification.png" ∉
      (test_timeline_editor lateFailEnv).2 :=
  ⟨c10_no_screenshot_on_late_failure lateFailEnv
      (Exc.assertionFailed "Creation Time not visible") rfl rfl rfl (by rfl)
      "verification/timeout.png",
   c10_no_screenshot_on_late_failure lateFailEnv
      (Exc.assertionFailed "Creation Time not visible") rfl rfl rfl (by rfl)
      "verification/verification.png"⟩

end VideoWare
